import Mathlib

/-!
Verification of pheme.longitudinal — a shallow embedding of the
deduplication pipeline (`pheme/longitudinal/longitudinal_worker.py`,
`longitudinal_manager.py`, `select_or_insert.py`, `tables.py`) together
with theorems settling the frozen claims about its specification.

Conventions used throughout:

* Python strings are Lean `String`; Python `None`-able values are `Option`.
* Python truthiness is modelled explicitly: an empty / `None` string is
  falsy (`pyTruthyStr`), a `None` or zero integer is falsy, a `datetime`
  object is always truthy (`Option.isSome`).
* Python string slicing `s[:n]` is `pyTake n s` (on the character list),
  and `len` is `pyLen`.
* Datetimes are `Nat` (only their ordering matters to the claims).
* Python exceptions are the `PyExn` error component of `Except`.
-/

deriving instance DecidableEq for Except

namespace Pheme

/-- Python truthiness of an optional string: `None` and `''` are falsy. -/
def pyTruthyStr : Option String → Bool
  | none => false
  | some s => !(s == "")

/-- Python truthiness of an optional integer: `None` and `0` are falsy. -/
def pyTruthyInt : Option Int → Bool
  | none => false
  | some n => !(n == 0)

/-- Python truthiness of an optional natural (e.g. a database id): `None`
and `0` are falsy. -/
def pyTruthyNat : Option Nat → Bool
  | none => false
  | some n => !(n == 0)

/-- Python string slice `s[:n]`, taken on the character list. -/
def pyTake (n : Nat) (s : String) : String := ⟨s.data.take n⟩

/-- Python `len(s)` in characters. -/
def pyLen (s : String) : Nat := s.data.length

/-- Python `s.strip()`: drop leading and trailing whitespace. -/
def pyStrip (s : String) : String :=
  ⟨((s.data.dropWhile Char.isWhitespace).reverse.dropWhile Char.isWhitespace).reverse⟩

/-- Python `s.endswith(t)`. -/
def pyEndsWith (s t : String) : Bool := t.data.isSuffixOf s.data

/-- Python exceptions raised by the embedded code. -/
inductive PyExn where
  /-- `TypeError` raised by `SurrogateLab.append_result` after `__hash__`. -/
  | typeErrorAfterHash : PyExn
  /-- `TypeError` from `None + [x]` when `hl7_obx_ids` is `None`. -/
  | typeErrorNoneConcat : PyExn
  /-- A failed `assert` statement. -/
  | assertionError : PyExn
deriving DecidableEq

/-! ## ObxSequence (longitudinal_worker.py lines 946-1013)

`ObxSequence._set_seq` strips the raw OBX-4.1 text and stores either
`seq = None` (empty input), a whole value alone (`"N"`), or a whole and a
fractional value (`"N.M"`).  `Seq41` is the stored state after that
parse; integer parsing of the digits is the only part elided. -/

/-- Stored state of an `ObxSequence`: the OBX-4.1 sub-id is empty, a
plain integer `"N"`, or dotted `"N.M"`. -/
inductive Seq41 where
  | null : Seq41
  | whole (n : Int) : Seq41
  | dotted (w f : Int) : Seq41
deriving DecidableEq

/-- The private `__whole` attribute, defined whenever `seq` is non-empty. -/
def Seq41.wholeVal : Seq41 → Option Int
  | .null => none
  | .whole n => some n
  | .dotted w _ => some w

/-- The private `__frac` attribute: set only for dotted input, `None`
otherwise. -/
def Seq41.fracOpt : Seq41 → Option Int
  | .dotted _ f => some f
  | _ => none

/-- Embeds `ObxSequence.in_sequence_with` (lines 978-1013).  Mirrors the
source line for line: the guard `if self.__seq and other.__seq`, then the
`1.1 -> 1.2` case and the `1.1 -> 2.1` case.  The fractional parts are
tested with Python truthiness (`self.__frac and other.__frac`), so a
fractional part of `0` behaves like an undefined one. -/
def inSequenceWith (a b : Seq41) : Bool :=
  if !(a == .null) && !(b == .null) then
    -- Look for 1.1 -> 1.2 case
    if (a.wholeVal == b.wholeVal) && pyTruthyInt a.fracOpt && pyTruthyInt b.fracOpt &&
        ((a.fracOpt.getD 0) < (b.fracOpt.getD 0)) then
      true
    -- Look for 1.1 -> 2.1 case
    else if ((a.wholeVal.getD 0) < (b.wholeVal.getD 0)) && pyTruthyInt a.fracOpt &&
        pyTruthyInt b.fracOpt && (a.fracOpt == b.fracOpt) then
      true
    else false
  else false

/-- The claim's gloss of `in_sequence_with` ("equal whole parts with both
fractional parts defined and strictly increasing, or strictly increasing
whole parts with both fractional parts defined and equal").  Stated for
comparison with `inSequenceWith`, which additionally requires the
fractional parts to be non-zero. -/
def inSequenceWithClaimRule (a b : Seq41) : Bool :=
  if !(a == .null) && !(b == .null) then
    ((a.wholeVal == b.wholeVal) && a.fracOpt.isSome && b.fracOpt.isSome &&
      ((a.fracOpt.getD 0) < (b.fracOpt.getD 0))) ||
    (((a.wholeVal.getD 0) < (b.wholeVal.getD 0)) && a.fracOpt.isSome && b.fracOpt.isSome &&
      (a.fracOpt == b.fracOpt))
  else false

/-! ## NextLabState (longitudinal_worker.py lines 1016-1075) -/

/-- State of the lab chunking machine: `__active_index`,
`__active_lab_set`, `__last_sequence` and `__last_code`.  `__last_code`
is unset until the first `transition_new_obx`, modelled as `none`. -/
structure NextLabState where
  activeIndex : Nat
  activeLabSet : Bool
  lastSequence : Seq41
  lastCode : Option String
deriving DecidableEq

/-- The `NextLabState.__init__` state. -/
def NextLabState.init : NextLabState :=
  { activeIndex := 0, activeLabSet := false, lastSequence := .null, lastCode := none }

/-- Embeds `NextLabState.__bump_active_index` (lines 1042-1045): advance
the index, clear `active_lab_set`, reset the last sequence. -/
def NextLabState.bumpActiveIndex (st : NextLabState) : NextLabState :=
  { st with activeIndex := st.activeIndex + 1,
            activeLabSet := false,
            lastSequence := .null }

/-- Embeds `NextLabState.transition_new_obr` (lines 1050-1053) as the
source executes it.  The body reads

    if self.__active_lab_set:
        self.__bump_active_index

which references the bound method without calling it, so the branch has no
effect and the state is returned unchanged. -/
def NextLabState.transitionNewObr (st : NextLabState) : NextLabState :=
  if st.activeLabSet then st else st

/-- Modelled from the spec: `on_new_obr`: if `active_lab_set`, advance
`active_index`, reset `active_lab_set=false, last_sequence=empty`.  This
is the behaviour `transition_new_obr` documents (the `NextLabState`
docstring lists "1. next obr" among the lab-separation rules) and the
spec states; the source body is missing the call parentheses.  Kept as a
separate definition for comparison with `transitionNewObr`. -/
def NextLabState.transitionNewObrSpec (st : NextLabState) : NextLabState :=
  if st.activeLabSet then st.bumpActiveIndex else st

/-- Embeds `NextLabState.transition_new_obx` (lines 1055-1075): bump when
the code changed or the new sequence is not in sequence with the last
one; then record the new sequence, set `active_lab_set`, record the
code. -/
def NextLabState.transitionNewObx (st : NextLabState) (sequence : Seq41)
    (code : String) : NextLabState :=
  let st :=
    if st.activeLabSet then
      if !(st.lastCode == some code) then st.bumpActiveIndex
      else if !(inSequenceWith st.lastSequence sequence) then st.bumpActiveIndex
      else st
    else st
  { st with lastSequence := sequence, activeLabSet := true, lastCode := some code }

/-! ## SurrogateLab (longitudinal_worker.py lines 245-436)

Only the fields the claims touch are modelled: `test_code`, `result`,
`hl7_obx_ids`, the cached-hash marker (`_hashvalue`) and `note`.  The
other constructor arguments (units, status, flag, the dimension
references, datetimes, `hl7_obr_id`) do not enter any claim's property
and are carried nowhere. -/

/-- Maximum stored length of a lab result (`SurrogateLab.MAX_RESULT_LEN`,
also `tables.MAX_RESULT_LEN`). -/
def MAX_RESULT_LEN : Nat := 500

/-- Maximum stored length of a note (`tables.MAX_NOTE_LEN`). -/
def MAX_NOTE_LEN : Nat := 500

/-- In-memory lab result under construction. `hashed` records whether
`__hash__` has cached `_hashvalue`. -/
structure SurrogateLab where
  test_code : String
  result : Option String
  hl7_obx_ids : Option (List Nat)
  hashed : Bool
  note : Option String
deriving DecidableEq

/-- Embeds `SurrogateLab.__init__` (lines 271-321) on the modelled
fields.  `__setattr__` (lines 397-403) truncates a non-`None` `result` to
`MAX_RESULT_LEN` during construction; `hl7_obx_ids` is `[hl7_obx_id]` if
the id is truthy, else `None` (line 318). -/
def SurrogateLab.init (test_code : String) (result : Option String)
    (hl7_obx_id : Option Nat) : SurrogateLab :=
  { test_code := test_code
    result := result.map (pyTake MAX_RESULT_LEN)
    hl7_obx_ids := match hl7_obx_id with
      | some i => if pyTruthyNat (some i) then some [i] else none
      | none => none
    hashed := false
    note := none }

/-- Embeds `SurrogateLab.append_result` (lines 349-383).  Order as in the
source: raise `TypeError` if `_hashvalue` exists; concatenate
`hl7_obx_ids + [hl7_obx_id]` (raising `TypeError` when the list is
`None`); return if `result is None`; space-join and truncate. -/
def SurrogateLab.appendResult (lab : SurrogateLab) (result : Option String)
    (hl7_obx_id : Nat) : Except PyExn SurrogateLab :=
  if lab.hashed then
    .error .typeErrorAfterHash
  else
    match lab.hl7_obx_ids with
    | none => .error .typeErrorNoneConcat
    | some ids =>
      let lab := { lab with hl7_obx_ids := some (ids ++ [hl7_obx_id]) }
      match result with
      | none => .ok lab
      | some r =>
        match lab.result with
        | some old => .ok { lab with result := some (pyTake MAX_RESULT_LEN (old ++ " " ++ r)) }
        | none => .ok { lab with result := some (pyTake MAX_RESULT_LEN r) }

/-- Embeds the caching effect of `SurrogateLab.__hash__` (lines 408-433):
the first call stores `_hashvalue`, after which `append_result` must
fail.  The numeric hash value itself is irrelevant to the claims. -/
def SurrogateLab.computeHash (lab : SurrogateLab) : SurrogateLab :=
  { lab with hashed := true }

/-! ## LongitudinalWorker._new_labs (longitudinal_worker.py lines 1313-1395)

The query rows are modelled as a list of OBRs, each carrying its OBX
rows.  An OBX row carries its parsed OBX-4.1 sequence, the code chosen
by `_preferred_lab_data` for the (OBR, OBX) pair, the already
XML-stripped `observation_result`, and the warehouse `hl7_obx_id`
(non-zero by schema).  Note association (`_associate_notes`) happens
after chunking and does not affect the lab boundaries the claims are
about, so it is not replayed here. -/

/-- One OBX row as `_new_labs` consumes it. -/
structure ObxRow where
  /-- Parsed OBX-4.1 sub-id (`obx.sequence` through `ObxSequence`). -/
  sequence : Seq41
  /-- `best_code` from `_preferred_lab_data(observation, obx)`. -/
  code : String
  /-- `stripXML(obx.observation_result)`. -/
  result : Option String
  /-- `obx.hl7_obx_id`. -/
  hl7_obx_id : Nat
deriving DecidableEq

/-- One `ObservationData` row (OBR) with its OBX rows. -/
structure ObrRow where
  obxes : List ObxRow
deriving DecidableEq

/-- The per-OBX body of `_new_labs` (lines 1349-1391): run
`transition_new_obx`; when `len(new_labs) == transition_tool.index`
append a fresh `SurrogateLab`, otherwise assert the index points at the
last lab and `append_result` onto it. -/
def newLabsObxStep (acc : NextLabState × List SurrogateLab) (obx : ObxRow) :
    Except PyExn (NextLabState × List SurrogateLab) :=
  let st := acc.1.transitionNewObx obx.sequence obx.code
  let labs := acc.2
  if labs.length == st.activeIndex then
    .ok (st, labs ++ [SurrogateLab.init obx.code obx.result (some obx.hl7_obx_id)])
  else
    -- assert(transition_tool.index == len(new_labs) - 1)
    if !(st.activeIndex + 1 == labs.length) then
      .error .assertionError
    else
      match labs[st.activeIndex]? with
      | none => .error .assertionError
      | some lab =>
        (lab.appendResult obx.result obx.hl7_obx_id).map
          fun lab' => (st, labs.set st.activeIndex lab')

/-- The per-OBR body of `_new_labs`: `transition_new_obr`, then the OBX
loop. -/
def newLabsObrStep (acc : NextLabState × List SurrogateLab) (obr : ObrRow) :
    Except PyExn (NextLabState × List SurrogateLab) :=
  obr.obxes.foldlM newLabsObxStep (acc.1.transitionNewObr, acc.2)

/-- Embeds `LongitudinalWorker._new_labs` (lines 1339-1395): fold the
transition tool and the accumulating lab list over the OBR/OBX stream. -/
def newLabs (stream : List ObrRow) : Except PyExn (List SurrogateLab) :=
  (stream.foldlM newLabsObrStep (NextLabState.init, [])).map Prod.snd

/-- `_new_labs` as the spec describes it: identical except that an OBR
boundary runs `transitionNewObrSpec` (the documented bump).  Kept for
comparison with `newLabs`. -/
def newLabsObrStepSpec (acc : NextLabState × List SurrogateLab) (obr : ObrRow) :
    Except PyExn (NextLabState × List SurrogateLab) :=
  obr.obxes.foldlM newLabsObxStep (acc.1.transitionNewObrSpec, acc.2)

/-- The spec-side counterpart of `newLabs`, using `newLabsObrStepSpec`. -/
def newLabsSpec (stream : List ObrRow) : Except PyExn (List SurrogateLab) :=
  (stream.foldlM newLabsObrStepSpec (NextLabState.init, [])).map Prod.snd

/-! ## _preferred_lab_flag (longitudinal_worker.py lines 1127-1153) -/

/-- Abnormality fields of an `HL7_Obx` row, the inputs of
`_preferred_lab_flag`. -/
structure ObxAbnorm where
  abnorm_id : Option String
  abnorm_text : Option String
  abnorm_coding : Option String
  alt_abnorm_id : Option String
  alt_abnorm_text : Option String
  alt_abnorm_coding : Option String
deriving DecidableEq

/-- A `LabFlag` dimension candidate as built by `_preferred_lab_flag`. -/
structure LabFlag where
  code : Option String
  code_text : Option String
  coding : Option String
deriving DecidableEq

/-- Embeds `_preferred_lab_flag` (lines 1139-1153).  The source guards on
`any((obx.abnorm_id, obx.abnorm_text, obx.alt_abnorm_id,
obx.alt_abnorm_text))` — the two coding fields are not part of the guard
— then picks the primary set when `obx.abnorm_id or obx.abnorm_text`,
else the alternate set. -/
def preferredLabFlag (obx : ObxAbnorm) : Option LabFlag :=
  if !(pyTruthyStr obx.abnorm_id || pyTruthyStr obx.abnorm_text ||
        pyTruthyStr obx.alt_abnorm_id || pyTruthyStr obx.alt_abnorm_text) then
    none
  else if pyTruthyStr obx.abnorm_id || pyTruthyStr obx.abnorm_text then
    some { code := obx.abnorm_id, code_text := obx.abnorm_text,
           coding := obx.abnorm_coding }
  else
    some { code := obx.alt_abnorm_id, code_text := obx.alt_abnorm_text,
           coding := obx.alt_abnorm_coding }

/-- The claim's selection rule, for comparison: the primary abnormality
set whenever *any of its three fields* (code, text, coding) is defined;
otherwise the alternate set when any of its fields is defined; otherwise
none. -/
def preferredLabFlagClaimRule (obx : ObxAbnorm) : Option LabFlag :=
  if pyTruthyStr obx.abnorm_id || pyTruthyStr obx.abnorm_text ||
      pyTruthyStr obx.abnorm_coding then
    some { code := obx.abnorm_id, code_text := obx.abnorm_text,
           coding := obx.abnorm_coding }
  else if pyTruthyStr obx.alt_abnorm_id || pyTruthyStr obx.alt_abnorm_text ||
      pyTruthyStr obx.alt_abnorm_coding then
    some { code := obx.alt_abnorm_id, code_text := obx.alt_abnorm_text,
           coding := obx.alt_abnorm_coding }
  else none

/-! ## ever_in_icu (longitudinal_worker.py lines 508-527 and 916-934)

`SurrogateVisit._set_assigned_location` and `_set_service_area` manage
the `ever_in_icu` flag on the wrapped visit row.  Only the fields those
two setters read or write are modelled. -/

/-- The slice of a `SurrogateVisit` (and its wrapped visit row) that the
two ICU-relevant setters touch: the visit's `ever_in_icu` flag plus the
surrogate's latest `_assigned_location` and `_service_area` strings. -/
structure VisitIcuState where
  ever_in_icu : Bool
  assigned_location : Option String
  service_area : Option String
deriving DecidableEq

/-- Embeds `SurrogateVisit._set_assigned_location` (lines 508-527):
assert the value is truthy and non-blank; set `ever_in_icu` when the
location ends with `"ICU"` or `"ACU"` or is `"ACUI"`; store the
location.  `ever_in_icu` is never written `False` here. -/
def setAssignedLocation (v : VisitIcuState) (location : String) :
    Except PyExn VisitIcuState :=
  if !(pyTruthyStr (some location) && pyTruthyStr (some (pyStrip location))) then
    .error .assertionError
  else
    let v :=
      if pyEndsWith location "ICU" || pyEndsWith location "ACU" ||
          location == "ACUI" then
        { v with ever_in_icu := true }
      else v
    .ok { v with assigned_location := some location }

/-- Embeds `SurrogateVisit._set_service_area` (lines 916-934): assert
non-blank; set `ever_in_icu` when the area is `"INT"` or `"PIN"`; store
the area.  `ever_in_icu` is never written `False` here. -/
def setServiceArea (v : VisitIcuState) (service_area : String) :
    Except PyExn VisitIcuState :=
  if !(pyTruthyStr (some service_area) && pyTruthyStr (some (pyStrip service_area))) then
    .error .assertionError
  else
    let v :=
      if service_area == "INT" || service_area == "PIN" then
        { v with ever_in_icu := true }
      else v
    .ok { v with service_area := some service_area }

/-- A call to one of the two ICU-relevant setters. -/
inductive IcuSetterCall where
  | assignedLocation (location : String) : IcuSetterCall
  | serviceArea (area : String) : IcuSetterCall
deriving DecidableEq

/-- Run one setter call. -/
def applyIcuSetter (v : VisitIcuState) : IcuSetterCall → Except PyExn VisitIcuState
  | .assignedLocation l => setAssignedLocation v l
  | .serviceArea a => setServiceArea v a

/-- Run a sequence of setter calls (exceptions abort, as in Python). -/
def applyIcuSetters (v : VisitIcuState) (calls : List IcuSetterCall) :
    Except PyExn VisitIcuState :=
  calls.foldlM applyIcuSetter v

/-- Whether one setter call's argument qualifies for ICU detection, read
off the two setters' conditions. -/
def icuQualifying : IcuSetterCall → Bool
  | .assignedLocation l =>
      pyEndsWith l "ICU" || pyEndsWith l "ACU" || l == "ACUI"
  | .serviceArea a => a == "INT" || a == "PIN"

/-! ## Dimension constructors with truncation (tables.py lines 245-304) -/

/-- Embeds `LabResult.__init__` (tables.py lines 250-257): the `result`
keyword is truncated to `MAX_RESULT_LEN` when present and truthy.
Returns the stored `result` field. -/
def labResultInitResult (result : Option String) : Option String :=
  if pyTruthyStr result then result.map (pyTake MAX_RESULT_LEN) else result

/-- Embeds `Note.__init__` (tables.py lines 297-304): the `note` keyword
is truncated to `MAX_NOTE_LEN`.  (`SurrogateLab.set_note` only constructs
a `Note` from a non-empty string, so the argument is a `String`.)
Returns the stored `note` field. -/
def noteInitNote (note : String) : String :=
  pyTake MAX_NOTE_LEN note

/-! ## SelectOrInsert.fetch (select_or_insert.py lines 29-53)

A dimension row is modelled by its identifying tuple (`query_fields`
values flattened into `key`) and its primary key.  `fetch` runs under
the dimension's named lock; the interesting scenario for the claims is a
process that does *not* share the lock committing a conflicting row
between this session's SELECT and its INSERT.  That set of externally
committed rows is the `external` argument: the SELECT runs against `db`
(the rows visible when the query executes), the INSERT's unique
constraint is checked against `db ++ external`. -/

/-- A dimension row: identifying-fields tuple and primary key. -/
structure DimRow where
  key : String
  pk : Nat
deriving DecidableEq

/-- Outcome of `SelectOrInsert.fetch`.  `multipleResultsFound` and
`integrityError` are exceptions propagating out of `fetch` (the named
lock is released by the `finally`). -/
inductive FetchResult where
  | ok (row : DimRow) : FetchResult
  | multipleResultsFound : FetchResult
  | integrityError : FetchResult
deriving DecidableEq

/-- Embeds `SelectOrInsert.fetch` (lines 29-53).  `cache_lookup` always
returns `None` (a TODO stub, lines 21-23), so control always reaches the
query.  A single-row SELECT match is returned; more than one raises
`MultipleResultsFound` (re-raised, line 45); on `NoResultFound` the
candidate is inserted and committed.  The insert raises `IntegrityError`
when a conflicting row was committed meanwhile by a process not sharing
the lock — `fetch` has no handler for it, so it propagates.  Returns the
outcome and the committed table afterwards. -/
def fetch (db : List DimRow) (external : List DimRow) (cand : DimRow) :
    FetchResult × List DimRow :=
  let selected := db.filter fun r => r.key == cand.key
  match selected with
  | [row] => (.ok row, db ++ external)
  | [] =>
    let committed := db ++ external
    if committed.any fun r => r.key == cand.key then
      (.integrityError, committed)
    else
      (.ok cand, committed ++ [cand])
  | _ => (.multipleResultsFound, db ++ external)

/-! ## dedupVisit merge loop, scalar step (longitudinal_worker.py lines 1626-1645)

For a classed (non-ORU, non-ORM) message the loop body first folds the
message datetime into `first_message`/`last_message`, *then* tests
`message_datetime < longitudinal_visit.last_message` as the stale-skip
guard, and only then applies the five scalar fields.  Only that slice of
the body is modelled; the dimension setters, diagnoses and clinical
observations that follow in the source are likewise unreachable for a
skipped message and are not needed to settle the claim. -/

/-- The scalar slice of a mart `visit` row touched by the modelled merge
step.  Datetimes are `Nat`. -/
structure FactVisit where
  first_message : Nat
  last_message : Nat
  admit_datetime : Option Nat
  discharge_datetime : Option Nat
  gender : Option String
  dob : Option Nat
  disposition : Option String
deriving DecidableEq

/-- The matching fields of an incoming classed message
(`message.message_datetime` and `message.visit.*`). -/
structure ClassedMessage where
  message_datetime : Nat
  admit_datetime : Option Nat
  discharge_datetime : Option Nat
  gender : Option String
  dob : Option Nat
  disposition : Option String
deriving DecidableEq

/-- The `for field in (...)` body (lines 1640-1645): `if value and value
!= b4: setattr`.  A `datetime` value is truthy whenever present; a string
value must be non-empty. -/
def applyScalarFields (v : FactVisit) (m : ClassedMessage) : FactVisit :=
  let v := if m.admit_datetime.isSome && !(m.admit_datetime == v.admit_datetime) then
    { v with admit_datetime := m.admit_datetime } else v
  let v := if m.discharge_datetime.isSome && !(m.discharge_datetime == v.discharge_datetime) then
    { v with discharge_datetime := m.discharge_datetime } else v
  let v := if pyTruthyStr m.gender && !(m.gender == v.gender) then
    { v with gender := m.gender } else v
  let v := if m.dob.isSome && !(m.dob == v.dob) then
    { v with dob := m.dob } else v
  let v := if pyTruthyStr m.disposition && !(m.disposition == v.disposition) then
    { v with disposition := m.disposition } else v
  v

/-- Embeds lines 1626-1645 of `dedupVisit` in source order: update
`first_message` and `last_message` (lines 1626-1629), then test the
stale-duplicate guard `message_datetime < last_message` (line 1632)
against the *already updated* value, skipping (second component `true`)
when it fires; otherwise apply the five scalar fields. -/
def mergeClassedScalars (v : FactVisit) (m : ClassedMessage) : FactVisit × Bool :=
  let v := { v with first_message := min m.message_datetime v.first_message,
                    last_message := max m.message_datetime v.last_message }
  if m.message_datetime < v.last_message then
    (v, true)
  else
    (applyScalarFields v m, false)

/-! ## dedupVisit admit_datetime guard (longitudinal_worker.py lines 1697-1718)

After the merge loop, `dedupVisit` iterates `self._surrogates.items()`:
a surrogate whose visit lacks `admit_datetime` makes it mark every
unprocessed `internal_message_processed` row of the visit as processed
and `return` (aborting the rest of `dedupVisit`); otherwise a surrogate
whose visit has no primary key yet is added to the session and
committed.  Only reaching the end of the loop lets `dedupVisit` go on to
labs, clinical data and `establish_associations`. -/

/-- A surrogate as the guard sees it: an identifier for bookkeeping, the
visit's `admit_datetime` and whether the visit row already has a primary
key. -/
structure GuardSurrogate where
  ident : Nat
  admit_datetime : Option Nat
  has_pk : Bool
deriving DecidableEq

/-- Outcome of the guard loop and the remainder of `dedupVisit`. -/
structure GuardOutcome where
  /-- Identifiers of new visit rows added and committed by the loop. -/
  persisted : List Nat
  /-- Whether the canceled-visit UPDATE marked the visit's unprocessed
  messages as processed. -/
  markedProcessedEarly : Bool
  /-- Whether the guard aborted `dedupVisit` (the `return` on line 1712). -/
  aborted : Bool
deriving DecidableEq

/-- Embeds the guard loop (lines 1702-1718) over the surrogates in
iteration order. -/
def admitGuard : List GuardSurrogate → GuardOutcome
  | [] => { persisted := [], markedProcessedEarly := false, aborted := false }
  | sv :: rest =>
    if sv.admit_datetime.isNone then
      { persisted := [], markedProcessedEarly := true, aborted := true }
    else
      let r := admitGuard rest
      { r with persisted := (if sv.has_pk then [] else [sv.ident]) ++ r.persisted }

/-- The tail of `dedupVisit` after the guard: associations are
established (lines 1742-1753) only when the guard did not abort. -/
def dedupTailAssociates (svs : List GuardSurrogate) : Bool :=
  !(admitGuard svs).aborted

/-! ## Manager visit enumeration and fan-out
(longitudinal_manager.py lines 162-187 and 300-323) -/

/-- A row of `internal_message_processed`. -/
structure MessageProcessedRow where
  hl7_msh_id : Nat
  message_datetime : Nat
  visit_id : String
  processed_datetime : Option Nat
deriving DecidableEq

/-- Embeds `_visitsToProcess` without a report date (lines 172-186):
`SELECT DISTINCT(visit_id) FROM internal_message_processed WHERE
processed_datetime IS NULL`. -/
def visitsToProcess (db : List MessageProcessedRow) : List String :=
  ((db.filter fun r => r.processed_datetime.isNone).map
    (fun r => r.visit_id)).dedup

/-- Embeds the fan-out gate in `execute` (lines 301-323): workers are
started and the queue populated only under `if len(visits_to_process) >
1`; otherwise nothing is enqueued. -/
def enqueuedVisits (visits_to_process : List String) : List String :=
  if visits_to_process.length > 1 then visits_to_process else []

/-! ## Helper lemmas -/

/-- A Python slice `s[:n]` has length at most `n`. -/
theorem pyLen_pyTake_le (n : Nat) (s : String) : pyLen (pyTake n s) ≤ n := by
  simp [pyLen, pyTake]

/-- `transition_new_obx` under an unchanged code bumps the index exactly
when the new sequence fails `in_sequence_with`. -/
theorem transitionNewObx_sameCode (st : NextLabState) (seq : Seq41) (code : String)
    (h1 : st.activeLabSet = true) (h2 : st.lastCode = some code) :
    (st.transitionNewObx seq code).activeIndex =
      (if inSequenceWith st.lastSequence seq then st.activeIndex else st.activeIndex + 1) := by
  simp [NextLabState.transitionNewObx, h1, h2, NextLabState.bumpActiveIndex]
  by_cases h : inSequenceWith st.lastSequence seq <;> simp [h]

/-! ## Claim theorems -/

/-- C1: the claim (with the spec) says an OBR boundary starts a new lab
whenever the previous OBR emitted at least one OBX — `on_new_obr` with
`active_lab_set` should advance the index and reset.  The source's
`transition_new_obr` references `__bump_active_index` without calling it
(line 1053), so it never changes the state: part one shows the embedded
transition is the identity.  Consequently, on the stream OBR1 = [OBX
seq 1.1, code C], OBR2 = [OBX seq 1.2, code C] the code produces a
single lab whose result concatenates both OBX results — the new OBR's
first OBX is appended to the previous OBR's lab — while the documented
transition (`newLabsSpec`) produces two labs. -/
theorem c1_obr_boundary_never_starts_new_lab :
    (∀ st : NextLabState, st.transitionNewObr = st)
    ∧ (newLabs [⟨[⟨.dotted 1 1, "C", some "r1", 1⟩]⟩,
                ⟨[⟨.dotted 1 2, "C", some "r2", 2⟩]⟩]).map List.length = .ok 1
    ∧ (newLabs [⟨[⟨.dotted 1 1, "C", some "r1", 1⟩]⟩,
                ⟨[⟨.dotted 1 2, "C", some "r2", 2⟩]⟩]).map
        (List.map SurrogateLab.result) = .ok [some "r1 r2"]
    ∧ (newLabsSpec [⟨[⟨.dotted 1 1, "C", some "r1", 1⟩]⟩,
                    ⟨[⟨.dotted 1 2, "C", some "r2", 2⟩]⟩]).map List.length = .ok 2 := by
  refine ⟨fun st => ?_, by decide, by decide, by decide⟩
  unfold NextLabState.transitionNewObr
  split <;> rfl

/-- C2 counterexample: the claim glosses `in_sequence_with` as requiring
the fractional parts merely *defined* (and increasing with equal wholes).
For sequences `1.0` then `1.1` both fractional parts are defined, the
whole parts are equal and the fractional part strictly increases, so the
claim says the second OBX continues the lab (one lab); the source tests
the fractional parts with Python truthiness, a zero fractional part
fails it, and the code starts a new lab (two labs). -/
theorem c2_counterexample_frac_zero :
    inSequenceWithClaimRule (.dotted 1 0) (.dotted 1 1) = true
    ∧ inSequenceWith (.dotted 1 0) (.dotted 1 1) = false
    ∧ (newLabs [⟨[⟨.dotted 1 0, "C", some "r1", 1⟩,
                  ⟨.dotted 1 1, "C", some "r2", 2⟩]⟩]).map List.length = .ok 2 := by
  decide

/-- C2 (amended): within one OBR with unchanged code, an OBX continues
the current lab exactly when the new OBX-4.1 sequence is
`in_sequence_with` the previous one, i.e. equal whole parts with both
fractional parts defined *and non-zero* and strictly increasing, or
strictly increasing whole parts with both fractional parts defined *and
non-zero* and equal; otherwise a new lab starts.  A sequence without a
fractional part is never in sequence.  Concretely, for one OBR with
identical codes: sequences [null, null] produce two labs, [1.1, 1.2]
produce one lab with space-concatenated result, [1.1, 2.1] produce one
lab, and [1.1, 1] produce two labs. -/
theorem c2_in_sequence_continuation :
    (∀ st : NextLabState, ∀ seq : Seq41, ∀ code : String,
        st.activeLabSet = true → st.lastCode = some code →
        (st.transitionNewObx seq code).activeIndex =
          (if inSequenceWith st.lastSequence seq then st.activeIndex
           else st.activeIndex + 1))
    ∧ (∀ w1 f1 w2 f2 : Int,
        inSequenceWith (.dotted w1 f1) (.dotted w2 f2) = true ↔
          ((w1 = w2 ∧ f1 ≠ 0 ∧ f2 ≠ 0 ∧ f1 < f2) ∨
           (w1 < w2 ∧ f1 ≠ 0 ∧ f2 ≠ 0 ∧ f1 = f2)))
    ∧ (∀ a b : Seq41, a.fracOpt = none ∨ b.fracOpt = none →
        inSequenceWith a b = false)
    ∧ (newLabs [⟨[⟨.null, "C", some "r1", 1⟩,
                  ⟨.null, "C", some "r2", 2⟩]⟩]).map List.length = .ok 2
    ∧ (newLabs [⟨[⟨.dotted 1 1, "C", some "r1", 1⟩,
                  ⟨.dotted 1 2, "C", some "r2", 2⟩]⟩]).map
        (List.map SurrogateLab.result) = .ok [some "r1 r2"]
    ∧ (newLabs [⟨[⟨.dotted 1 1, "C", some "r1", 1⟩,
                  ⟨.dotted 2 1, "C", some "r2", 2⟩]⟩]).map List.length = .ok 1
    ∧ (newLabs [⟨[⟨.dotted 1 1, "C", some "r1", 1⟩,
                  ⟨.whole 1, "C", some "r2", 2⟩]⟩]).map List.length = .ok 2 := by
  refine ⟨transitionNewObx_sameCode, ?_, ?_, by decide, by decide, by decide, by decide⟩
  · intro w1 f1 w2 f2
    simp [inSequenceWith, Seq41.wholeVal, Seq41.fracOpt, pyTruthyInt, Option.getD,
          beq_iff_eq]
    tauto
  · intro a b h
    cases a <;> cases b <;> simp_all [inSequenceWith, Seq41.fracOpt, pyTruthyInt]

/-- C2 witness: the hypothesis-bearing parts of
`c2_in_sequence_continuation` applied at concrete inputs: a state holding
sequence 1.1 under code "C" sees OBX sequence 1 (no fractional part) and
bumps its index from 0 to 1; and a whole-only sequence is never in
sequence. -/
theorem c2_in_sequence_continuation_witness :
    (NextLabState.transitionNewObx ⟨0, true, .dotted 1 1, some "C"⟩ (.whole 1) "C").activeIndex = 1
    ∧ inSequenceWith (.dotted 1 1) (.whole 1) = false := by
  constructor
  · have h := c2_in_sequence_continuation.1 ⟨0, true, .dotted 1 1, some "C"⟩
      (.whole 1) "C" rfl rfl
    simpa [show inSequenceWith (.dotted 1 1) (.whole 1) = false by decide] using h
  · exact c2_in_sequence_continuation.2.2.1 (.dotted 1 1) (.whole 1) (Or.inr rfl)

/-- C3 counterexample: the claim says a unique-constraint violation on
the INSERT makes `fetch` roll back, re-run the SELECT once, and return
the pre-existing row.  With an empty session view and the row `{key "k",
pk 1}` committed meanwhile by a process not sharing the lock, `fetch` of
a candidate `{key "k", pk 2}` raises `IntegrityError` (there is no
handler for it in `fetch`) instead of returning the pre-existing row. -/
theorem c3_counterexample_integrity_error_propagates :
    (fetch [] [⟨"k", 1⟩] ⟨"k", 2⟩).1 = .integrityError
    ∧ ¬ (fetch [] [⟨"k", 1⟩] ⟨"k", 2⟩).1 = .ok ⟨"k", 1⟩ := by
  decide

/-- C3 (amended): if the INSERT performed by `fetch` fails with a
unique-constraint violation despite the dimension's lock, `fetch` does
not retry: the `IntegrityError` propagates to the caller (part one).
When no concurrent conflicting commit occurs, a missed SELECT leads to a
committed insert of the candidate (part two), and a single-row SELECT
match is returned as-is (part three). -/
theorem c3_fetch_propagates_integrity_error :
    (∀ db ext cand, (db.filter fun r => r.key == cand.key) = [] →
        ((db ++ ext).any fun r => r.key == cand.key) = true →
        (fetch db ext cand).1 = .integrityError)
    ∧ (∀ db cand, (db.filter fun r => r.key == cand.key) = [] →
        (db.any fun r => r.key == cand.key) = false →
        fetch db [] cand = (.ok cand, db ++ [cand]))
    ∧ (∀ db ext cand row, (db.filter fun r => r.key == cand.key) = [row] →
        (fetch db ext cand).1 = .ok row) := by
  refine ⟨?_, ?_, ?_⟩
  · intro db ext cand h1 h2
    unfold fetch
    rw [h1]
    simp [h2]
  · intro db cand h1 h2
    unfold fetch
    rw [h1]
    simp [h2]
  · intro db ext cand row h
    unfold fetch
    rw [h]

/-- C3 witness: `c3_fetch_propagates_integrity_error` applied at concrete
inputs — the conflicting concurrent commit raises, the uncontended miss
inserts, and an existing row is returned. -/
theorem c3_fetch_propagates_integrity_error_witness :
    (fetch [⟨"a", 3⟩] [⟨"b", 4⟩] ⟨"b", 9⟩).1 = .integrityError
    ∧ fetch [⟨"a", 3⟩] [] ⟨"b", 9⟩ = (.ok ⟨"b", 9⟩, [⟨"a", 3⟩, ⟨"b", 9⟩])
    ∧ (fetch [⟨"a", 3⟩] [] ⟨"a", 7⟩).1 = .ok ⟨"a", 3⟩ :=
  ⟨c3_fetch_propagates_integrity_error.1 [⟨"a", 3⟩] [⟨"b", 4⟩] ⟨"b", 9⟩
      (by decide) (by decide),
   c3_fetch_propagates_integrity_error.2.1 [⟨"a", 3⟩] ⟨"b", 9⟩ (by decide) (by decide),
   c3_fetch_propagates_integrity_error.2.2 [⟨"a", 3⟩] [] ⟨"a", 7⟩ ⟨"a", 3⟩ (by decide)⟩

/-- C4: a classed message whose `message_datetime` is strictly below the
visit's `last_message` as it stood before the message was processed is
skipped as a stale duplicate, with none of its scalar fields applied.
The source tests `message_datetime < last_message` only after folding the
datetime into `last_message`, but `dt < max(dt, old)` is equivalent to
`dt < old`, so the guard fires exactly for stale messages (part one), and
a skipped message changes nothing beyond the `first_message` /
`last_message` bookkeeping (part two — in particular `admit_datetime`,
`discharge_datetime`, `gender`, `dob` and `disposition` are untouched,
and the `continue` bypasses the rest of the loop body). -/
theorem c4_stale_duplicate_skipped :
    (∀ v : FactVisit, ∀ m : ClassedMessage,
        (mergeClassedScalars v m).2 = decide (m.message_datetime < v.last_message))
    ∧ (∀ v : FactVisit, ∀ m : ClassedMessage,
        m.message_datetime < v.last_message →
        (mergeClassedScalars v m).1 =
          { v with first_message := min m.message_datetime v.first_message,
                   last_message := max m.message_datetime v.last_message }) := by
  have hiff : ∀ v : FactVisit, ∀ m : ClassedMessage,
      (m.message_datetime < max m.message_datetime v.last_message ↔
        m.message_datetime < v.last_message) := by
    intro v m
    rw [lt_max_iff]
    simp
  constructor
  · intro v m
    by_cases h : m.message_datetime < v.last_message
    · simp [mergeClassedScalars, (hiff v m).mpr h, h]
    · have h2 : ¬ m.message_datetime < max m.message_datetime v.last_message :=
        fun hc => h ((hiff v m).mp hc)
      simp [mergeClassedScalars, h2, h]
  · intro v m h
    simp [mergeClassedScalars, (hiff v m).mpr h]

/-- C4 witness: `c4_stale_duplicate_skipped` applied at a concrete
input — a visit with `last_message = 10` and a stale message with
`message_datetime = 5` carrying gender "F" is skipped: the skip flag is
set and the visit keeps `gender = none` while `first_message` drops
to 5. -/
theorem c4_stale_duplicate_skipped_witness :
    (mergeClassedScalars ⟨7, 10, some 3, none, none, none, none⟩
        ⟨5, none, none, some "F", none, none⟩).2 = decide ((5 : Nat) < 10)
    ∧ (mergeClassedScalars ⟨7, 10, some 3, none, none, none, none⟩
        ⟨5, none, none, some "F", none, none⟩).1 =
        ⟨5, 10, some 3, none, none, none, none⟩ :=
  ⟨c4_stale_duplicate_skipped.1 ⟨7, 10, some 3, none, none, none, none⟩
      ⟨5, none, none, some "F", none, none⟩,
   c4_stale_duplicate_skipped.2 ⟨7, 10, some 3, none, none, none, none⟩
      ⟨5, none, none, some "F", none, none⟩ (by decide)⟩

/-- C5 counterexample: the claim says the primary abnormality set is used
whenever *any of its three fields* is defined, in particular when only
the primary abnormality coding is defined.  The source's guard
`any((obx.abnorm_id, obx.abnorm_text, obx.alt_abnorm_id,
obx.alt_abnorm_text))` omits both coding fields, so an OBX whose only
defined abnormality field is the primary coding yields no lab flag at
all, where the claim's rule yields a primary-set flag. -/
theorem c5_counterexample_coding_only :
    preferredLabFlag ⟨none, none, some "LN", none, none, none⟩ = none
    ∧ preferredLabFlagClaimRule ⟨none, none, some "LN", none, none, none⟩ =
        some ⟨none, none, some "LN"⟩ := by
  decide

/-- C5 (amended): the preferred lab flag is the primary abnormality set
(code, text, coding) whenever the primary code or the primary text is
defined; otherwise the alternate set whenever the alternate code or the
alternate text is defined; otherwise no lab flag is produced.  The two
coding fields never influence the selection. -/
theorem c5_preferred_lab_flag_selection :
    (∀ obx : ObxAbnorm,
        (pyTruthyStr obx.abnorm_id || pyTruthyStr obx.abnorm_text) = true →
        preferredLabFlag obx =
          some ⟨obx.abnorm_id, obx.abnorm_text, obx.abnorm_coding⟩)
    ∧ (∀ obx : ObxAbnorm,
        (pyTruthyStr obx.abnorm_id || pyTruthyStr obx.abnorm_text) = false →
        (pyTruthyStr obx.alt_abnorm_id || pyTruthyStr obx.alt_abnorm_text) = true →
        preferredLabFlag obx =
          some ⟨obx.alt_abnorm_id, obx.alt_abnorm_text, obx.alt_abnorm_coding⟩)
    ∧ (∀ obx : ObxAbnorm,
        (pyTruthyStr obx.abnorm_id || pyTruthyStr obx.abnorm_text) = false →
        (pyTruthyStr obx.alt_abnorm_id || pyTruthyStr obx.alt_abnorm_text) = false →
        preferredLabFlag obx = none) := by
  refine ⟨?_, ?_, ?_⟩
  · intro obx h
    rcases Bool.or_eq_true _ _ |>.mp h with h1 | h1 <;>
      simp [preferredLabFlag, h1]
  · intro obx h1 h2
    have ⟨ha, hb⟩ := Bool.or_eq_false_iff.mp h1
    rcases Bool.or_eq_true _ _ |>.mp h2 with hc | hc <;>
      simp [preferredLabFlag, ha, hb, hc]
  · intro obx h1 h2
    have ⟨ha, hb⟩ := Bool.or_eq_false_iff.mp h1
    have ⟨hc, hd⟩ := Bool.or_eq_false_iff.mp h2
    simp [preferredLabFlag, ha, hb, hc, hd]

/-- C5 witness: `c5_preferred_lab_flag_selection` applied at concrete
rows — a primary-text-only row gives the primary set (with its coding), a
row with only alternate data gives the alternate set, and a row with only
coding data gives none. -/
theorem c5_preferred_lab_flag_selection_witness :
    preferredLabFlag ⟨none, some "HIGH", some "LN", none, none, none⟩ =
      some ⟨none, some "HIGH", some "LN"⟩
    ∧ preferredLabFlag ⟨none, none, none, some "H", none, some "L"⟩ =
        some ⟨some "H", none, some "L"⟩
    ∧ preferredLabFlag ⟨none, none, some "LN", none, none, some "L"⟩ = none :=
  ⟨c5_preferred_lab_flag_selection.1 ⟨none, some "HIGH", some "LN", none, none, none⟩
      (by decide),
   c5_preferred_lab_flag_selection.2.1 ⟨none, none, none, some "H", none, some "L"⟩
      (by decide) (by decide),
   c5_preferred_lab_flag_selection.2.2 ⟨none, none, some "LN", none, none, some "L"⟩
      (by decide) (by decide)⟩

/-- A single ICU-relevant setter call leaves `ever_in_icu` at the OR of
its previous value and the call's qualifying test. -/
theorem applyIcuSetter_ever_in_icu (v : VisitIcuState) (c : IcuSetterCall)
    (v' : VisitIcuState) (h : applyIcuSetter v c = .ok v') :
    v'.ever_in_icu = (v.ever_in_icu || icuQualifying c) := by
  cases c with
  | assignedLocation l =>
    simp only [applyIcuSetter, setAssignedLocation] at h
    split at h
    · exact absurd h (by simp)
    · split at h <;> (injection h with h3; rw [← h3]) <;> simp_all [icuQualifying]
  | serviceArea a =>
    simp only [applyIcuSetter, setServiceArea] at h
    split at h
    · exact absurd h (by simp)
    · split at h <;> (injection h with h3; rw [← h3]) <;> simp_all [icuQualifying]

/-- C6: over any sequence of `assigned_location` / `service_area` setter
calls that completes without an assertion failure, `ever_in_icu` ends
true exactly when it started true or some call qualified — an
`assigned_location` ending with "ICU" or "ACU" or equal to "ACUI", or a
`service_area` equal to "INT" or "PIN" (part two).  Part one is the
single-step law, from which monotonicity is immediate: a true flag stays
true through every later call. -/
theorem c6_ever_in_icu_monotone :
    (∀ v : VisitIcuState, ∀ c : IcuSetterCall, ∀ v' : VisitIcuState,
        applyIcuSetter v c = .ok v' →
        v'.ever_in_icu = (v.ever_in_icu || icuQualifying c))
    ∧ (∀ calls : List IcuSetterCall, ∀ v v' : VisitIcuState,
        applyIcuSetters v calls = .ok v' →
        v'.ever_in_icu = (v.ever_in_icu || calls.any icuQualifying)) := by
  refine ⟨applyIcuSetter_ever_in_icu, ?_⟩
  intro calls
  induction calls with
  | nil =>
    intro v v' h
    simp only [applyIcuSetters, List.foldlM] at h
    simp only [pure, Except.pure, Except.ok.injEq] at h
    simp [← h]
  | cons c cs ih =>
    intro v v' h
    simp only [applyIcuSetters, List.foldlM] at h
    cases hc : applyIcuSetter v c with
    | error e =>
      rw [hc] at h
      simp only [bind, Except.bind] at h
      exact absurd h (by simp)
    | ok v1 =>
      rw [hc] at h
      simp only [bind, Except.bind] at h
      have h1 := applyIcuSetter_ever_in_icu v c v1 hc
      have h2 := ih v1 v' h
      rw [h2, h1]
      simp [List.any_cons, Bool.or_assoc]

/-- C6 witness: `c6_ever_in_icu_monotone` applied at the spec's scenario:
from a fresh visit, assigned location "EDACU" (ends with "ACU") sets
`ever_in_icu`, and a later benign location "5W" does not clear it. -/
theorem c6_ever_in_icu_monotone_witness :
    VisitIcuState.ever_in_icu ⟨true, some "5W", none⟩ =
      (false || [IcuSetterCall.assignedLocation "EDACU",
                 IcuSetterCall.assignedLocation "5W"].any icuQualifying) :=
  c6_ever_in_icu_monotone.2
    [IcuSetterCall.assignedLocation "EDACU", IcuSetterCall.assignedLocation "5W"]
    ⟨false, none, none⟩ ⟨true, some "5W", none⟩ (by decide)

/-- C7: lab result and note strings never exceed `MAX_RESULT_LEN = 500`
characters: a `SurrogateLab`'s result is truncated at construction (part
one) and stays within the bound across every successful `append_result`
(part two, space-joined then truncated); the `LabResult` constructor
stores a result of at most 500 characters (part three) and the `Note`
constructor a note of at most 500 characters (part four). -/
theorem c7_result_note_truncated_500 :
    (∀ code : String, ∀ res : Option String, ∀ oid : Option Nat,
        pyLen (((SurrogateLab.init code res oid).result).getD "") ≤ MAX_RESULT_LEN)
    ∧ (∀ lab : SurrogateLab, ∀ res : Option String, ∀ oid : Nat, ∀ lab' : SurrogateLab,
        lab.appendResult res oid = .ok lab' →
        pyLen (lab.result.getD "") ≤ MAX_RESULT_LEN →
        pyLen (lab'.result.getD "") ≤ MAX_RESULT_LEN)
    ∧ (∀ r : Option String, pyLen ((labResultInitResult r).getD "") ≤ MAX_RESULT_LEN)
    ∧ (∀ n : String, pyLen (noteInitNote n) ≤ MAX_NOTE_LEN) := by
  refine ⟨?_, ?_, ?_, ?_⟩
  · intro code res oid
    cases res with
    | none => simp [SurrogateLab.init, pyLen]
    | some s => simpa [SurrogateLab.init] using pyLen_pyTake_le MAX_RESULT_LEN s
  · intro lab res oid lab' h hb
    unfold SurrogateLab.appendResult at h
    split at h
    · simp at h
    · cases hids : lab.hl7_obx_ids with
      | none => rw [hids] at h; simp at h
      | some ids =>
        rw [hids] at h
        cases res with
        | none =>
          simp at h
          simp [← h]
          exact hb
        | some r =>
          cases hres : lab.result with
          | some old =>
            rw [hres] at h
            simp at h
            simpa [← h] using pyLen_pyTake_le MAX_RESULT_LEN (old ++ " " ++ r)
          | none =>
            rw [hres] at h
            simp at h
            simpa [← h] using pyLen_pyTake_le MAX_RESULT_LEN r
  · intro r
    cases r with
    | none => simp [labResultInitResult, pyLen]
    | some s =>
      by_cases hs : pyTruthyStr (some s) = true
      · simpa [labResultInitResult, hs] using pyLen_pyTake_le MAX_RESULT_LEN s
      · simp [pyTruthyStr] at hs
        simp [labResultInitResult, pyTruthyStr, hs, pyLen]
  · intro n
    exact pyLen_pyTake_le MAX_NOTE_LEN n

/-- C7 witness: `c7_result_note_truncated_500` applied at a concrete
append — the lab built from result "r" with a successful append of "x"
stays within the bound. -/
theorem c7_result_note_truncated_500_witness :
    pyLen ((SurrogateLab.mk "c" (some "r x") (some [1, 2]) false none).result.getD "")
      ≤ MAX_RESULT_LEN :=
  c7_result_note_truncated_500.2.1 (SurrogateLab.init "c" (some "r") (some 1))
    (some "x") 2 (SurrogateLab.mk "c" (some "r x") (some [1, 2]) false none)
    (by decide) (by decide)


/-- C8: the claim says that with no report date, every distinct
`visit_id` having an unprocessed `message_processed` row is pushed onto
the work queue — including a set containing exactly one visit_id.  Part
one: the enumeration does find the singleton.  Part two: the fan-out gate
`if len(visits_to_process) > 1` then enqueues nothing for it, so the lone
visit is not processed in that run.  Parts three and four: with two
distinct unprocessed visits, both are enumerated and both are enqueued. -/
theorem c8_single_visit_never_enqueued :
    visitsToProcess [⟨1, 5, "v1", none⟩] = ["v1"]
    ∧ enqueuedVisits (visitsToProcess [⟨1, 5, "v1", none⟩]) = []
    ∧ visitsToProcess [⟨1, 5, "v1", none⟩, ⟨2, 6, "v2", none⟩] = ["v1", "v2"]
    ∧ enqueuedVisits (visitsToProcess [⟨1, 5, "v1", none⟩, ⟨2, 6, "v2", none⟩]) =
        ["v1", "v2"] := by
  refine ⟨by decide, by decide, by decide, by decide⟩

/-- C9 counterexample: the claim says that when some surrogate still has
a null `admit_datetime`, the visit is aborted with *no* surrogate
persisted, including surrogates that do have an `admit_datetime`.  With
two surrogates iterated in the order [ident 0: admit set, no pk;
ident 1: admit missing], the loop inserts and commits surrogate 0 before
reaching surrogate 1, so the run aborts having persisted surrogate 0. -/
theorem c9_counterexample_earlier_surrogate_persisted :
    admitGuard [⟨0, some 4, false⟩, ⟨1, none, false⟩] =
      { persisted := [0], markedProcessedEarly := true, aborted := true }
    ∧ ¬ (admitGuard [⟨0, some 4, false⟩, ⟨1, none, false⟩]).persisted = [] := by
  decide

/-- C9 (amended): after the merge loop, if some surrogate for the visit
still has a null `admit_datetime`, the worker marks every unprocessed
message of the visit as processed and aborts, and no surrogate is
*associated* in that run; however new surrogates that precede the first
null-admit surrogate in iteration order are still inserted and
committed.  Part one: the guard aborts exactly when some surrogate lacks
`admit_datetime`.  Part two: the canceled-visit UPDATE runs exactly in
that case.  Part three: the persisted set is exactly the new (no-pk)
surrogates strictly before the first null-admit one.  Part four:
associations are established only when no surrogate lacks
`admit_datetime`. -/
theorem c9_null_admit_aborts :
    (∀ svs : List GuardSurrogate,
        (admitGuard svs).aborted = svs.any fun sv => sv.admit_datetime.isNone)
    ∧ (∀ svs : List GuardSurrogate,
        (admitGuard svs).markedProcessedEarly =
          svs.any fun sv => sv.admit_datetime.isNone)
    ∧ (∀ svs : List GuardSurrogate,
        (admitGuard svs).persisted =
          (((svs.takeWhile fun sv => sv.admit_datetime.isSome).filter
              fun sv => !sv.has_pk).map GuardSurrogate.ident))
    ∧ (∀ svs : List GuardSurrogate,
        dedupTailAssociates svs = !(svs.any fun sv => sv.admit_datetime.isNone)) := by
  have habort : ∀ svs : List GuardSurrogate,
      (admitGuard svs).aborted = svs.any fun sv => sv.admit_datetime.isNone := by
    intro svs
    induction svs with
    | nil => simp [admitGuard]
    | cons sv rest ih =>
      by_cases h : sv.admit_datetime.isNone <;>
        simp [admitGuard, h, ih]
  have hmark : ∀ svs : List GuardSurrogate,
      (admitGuard svs).markedProcessedEarly =
        svs.any fun sv => sv.admit_datetime.isNone := by
    intro svs
    induction svs with
    | nil => simp [admitGuard]
    | cons sv rest ih =>
      by_cases h : sv.admit_datetime.isNone <;> simp [admitGuard, h, ih]
  refine ⟨habort, hmark, ?_, ?_⟩
  · intro svs
    induction svs with
    | nil => simp [admitGuard]
    | cons sv rest ih =>
      by_cases h : sv.admit_datetime.isNone
      · simp [admitGuard, h, List.takeWhile_cons,
              Option.isNone_iff_eq_none.mp h]
      · have hs : sv.admit_datetime.isSome = true := by
          cases hv : sv.admit_datetime with
          | none => rw [hv] at h; simp at h
          | some d => simp
        simp [admitGuard, h, List.takeWhile_cons, hs, ih]
        by_cases hp : sv.has_pk <;> simp [hp]
  · intro svs
    simp [dedupTailAssociates, habort svs]

/-- C10 counterexample: the claim says that before any hash is taken,
`append_result` always succeeds.  A `SurrogateLab` constructed with
`hl7_obx_id=None` (as `from_VisitLabAssociation` does) stores
`hl7_obx_ids = None`; it has never been hashed, yet `append_result`
raises a `TypeError` from `self.hl7_obx_ids + [hl7_obx_id]`. -/
theorem c10_counterexample_append_without_obx_id :
    (SurrogateLab.init "c" (some "r") none).hashed = false
    ∧ (SurrogateLab.init "c" (some "r") none).appendResult (some "x") 5 =
        .error .typeErrorNoneConcat := by
  decide

/-- C10 (amended): once `__hash__` has cached a value, every
`append_result` call raises a `TypeError` before mutating anything (part
one; in this functional embedding the error return carries no updated
lab, matching the source where the raise precedes every assignment).
Before any hash is taken, `append_result` succeeds exactly when
`hl7_obx_ids` is an actual list — i.e. the lab was constructed with a
truthy `hl7_obx_id` or has appended before (parts two and three).  Part
four: construction never sets the hash marker, and `__hash__` always
does. -/
theorem c10_append_after_hash_raises :
    (∀ lab : SurrogateLab, ∀ res : Option String, ∀ oid : Nat,
        lab.hashed = true →
        lab.appendResult res oid = .error .typeErrorAfterHash)
    ∧ (∀ lab : SurrogateLab, ∀ res : Option String, ∀ oid : Nat, ∀ ids : List Nat,
        lab.hashed = false → lab.hl7_obx_ids = some ids →
        ∃ lab' : SurrogateLab, lab.appendResult res oid = .ok lab'
          ∧ lab'.hl7_obx_ids = some (ids ++ [oid]) ∧ lab'.hashed = false)
    ∧ (∀ lab : SurrogateLab, ∀ res : Option String, ∀ oid : Nat,
        lab.hashed = false → lab.hl7_obx_ids = none →
        lab.appendResult res oid = .error .typeErrorNoneConcat)
    ∧ (∀ code : String, ∀ res : Option String, ∀ oid : Option Nat,
        (SurrogateLab.init code res oid).hashed = false)
    ∧ (∀ lab : SurrogateLab, lab.computeHash.hashed = true) := by
  refine ⟨?_, ?_, ?_, ?_, ?_⟩
  · intro lab res oid h
    simp [SurrogateLab.appendResult, h]
  · intro lab res oid ids h hids
    cases res with
    | none =>
      refine ⟨{ lab with hl7_obx_ids := some (ids ++ [oid]) }, ?_, by simp, by simp [h]⟩
      simp [SurrogateLab.appendResult, h, hids]
    | some r =>
      cases hres : lab.result with
      | some old =>
        refine ⟨{ lab with hl7_obx_ids := some (ids ++ [oid]),
                           result := some (pyTake MAX_RESULT_LEN (old ++ " " ++ r)) },
                ?_, by simp, by simp [h]⟩
        simp [SurrogateLab.appendResult, h, hids, hres]
      | none =>
        refine ⟨{ lab with hl7_obx_ids := some (ids ++ [oid]),
                           result := some (pyTake MAX_RESULT_LEN r) },
                ?_, by simp, by simp [h]⟩
        simp [SurrogateLab.appendResult, h, hids, hres]
  · intro lab res oid h hids
    simp [SurrogateLab.appendResult, h, hids]
  · intro code res oid
    simp [SurrogateLab.init]
  · intro lab
    simp [SurrogateLab.computeHash]

/-- C10 witness: `c10_append_after_hash_raises` applied at concrete
labs — a hashed lab rejects an append, a fresh lab with an obx id list
accepts one, and a fresh lab without one raises. -/
theorem c10_append_after_hash_raises_witness :
    ((SurrogateLab.init "c" (some "r") (some 1)).computeHash.appendResult
        (some "x") 2 = .error .typeErrorAfterHash)
    ∧ (∃ lab' : SurrogateLab,
        (SurrogateLab.init "c" (some "r") (some 1)).appendResult (some "x") 2 = .ok lab'
          ∧ lab'.hl7_obx_ids = some ([1] ++ [2]) ∧ lab'.hashed = false)
    ∧ ((SurrogateLab.mk "c" (some "r") none false none).appendResult (some "x") 2 =
        .error .typeErrorNoneConcat) :=
  ⟨c10_append_after_hash_raises.1 ((SurrogateLab.init "c" (some "r") (some 1)).computeHash)
      (some "x") 2 (by decide),
   c10_append_after_hash_raises.2.1 (SurrogateLab.init "c" (some "r") (some 1))
      (some "x") 2 [1] (by decide) (by decide),
   c10_append_after_hash_raises.2.2.1 (SurrogateLab.mk "c" (some "r") none false none)
      (some "x") 2 (by decide) (by decide)⟩

end Pheme
